import Mathlib

/-!
Verification of `w3af/core/controllers/chrome/instrumented.py`.

This file gives a shallow embedding of the `InstrumentedChrome` controller:
the page-lifecycle state machine driven by DevTools protocol events, the
`Runtime.evaluate` wrapper, the event-type validation used by
`dispatch_js_event`, the generic pagination loop `_paginate`, the
`EventListener` value equality, the teardown sequence `terminate`, and the
baseline configuration issued by `set_chrome_settings`.

Machine-level notes on the embedding:
* Python page-state flags are initialised to `None` and later hold `True` or
  `False`; the code only ever tests their truthiness, so they are embedded as
  `Bool` with `false` for the initial `None`.
* The page-state constants `PAGE_STATE_NONE = 0`, `PAGE_STATE_LOADING = 1`
  and `PAGE_STATE_LOADED = 2` are kept as natural numbers as in the source.
* Inbound protocol messages are dictionaries; the handlers read only the
  keys `method` and `params.name`, so a message is embedded as a record of
  those two optional fields (a missing key is `Option.none`).
-/

/-! ## Page state constants (class attributes of `InstrumentedChrome`) -/

def PAGE_STATE_NONE : Nat := 0

def PAGE_STATE_LOADING : Nat := 1

def PAGE_STATE_LOADED : Nat := 2

def PAGINATION_PAGE_COUNT : Nat := 20

/-! ## Inbound protocol messages -/

/-- The `params` sub-dictionary of a protocol message; the handlers only read
its `name` key, which may be missing. -/
structure MessageParams where
  name : Option String
deriving DecidableEq

/-- An inbound protocol message as consumed by `_page_state_handler`: the
`method` key and the `params` sub-dictionary, either of which may be missing. -/
structure ChromeMessage where
  method : Option String
  params : Option MessageParams
deriving DecidableEq

/-! ## Page lifecycle state -/

/-- The mutable page-state fields of `InstrumentedChrome.__init__`:
`_frame_stopped_loading_event`, `_frame_scheduled_navigation`,
`_network_almost_idle_event`, `_execution_context_created`, `_page_state`. -/
structure PageState where
  frame_stopped_loading_event : Bool
  frame_scheduled_navigation : Bool
  network_almost_idle_event : Bool
  execution_context_created : Bool
  page_state : Nat
deriving DecidableEq

/-- The state set by `__init__`: all flags `None` (falsy) and
`_page_state = PAGE_STATE_NONE`. -/
def initialPageState : PageState :=
  { frame_stopped_loading_event := false
    frame_scheduled_navigation := false
    network_almost_idle_event := false
    execution_context_created := false
    page_state := PAGE_STATE_NONE }

/-- `_navigator_started_handler`: on `Page.frameScheduledNavigation` reset the
three sub-flags, raise the scheduled flag and set the state to LOADING. -/
def _navigator_started_handler (message : ChromeMessage) (s : PageState) : PageState :=
  match message.method with
  | Option.none => s
  | Option.some method =>
    if method = "Page.frameScheduledNavigation" then
      { frame_stopped_loading_event := false
        frame_scheduled_navigation := true
        network_almost_idle_event := false
        execution_context_created := false
        page_state := PAGE_STATE_LOADING }
    else s

/-- The final check of `_load_url_finished_handler`: if the three sub-flags
are all set, move the page state to LOADED. -/
def check_load_complete (s : PageState) : PageState :=
  if s.network_almost_idle_event && s.frame_stopped_loading_event
      && s.execution_context_created then
    { s with page_state := PAGE_STATE_LOADED }
  else s

/-- `_load_url_finished_handler`: set the sub-flag corresponding to the
received event.  The early `return` statements of the Python code (missing
`method`, and a `Page.lifecycleEvent` missing `params` or `params.name`) skip
the trailing all-flags check; every other path, including an unrecognized
method, falls through to it. -/
def _load_url_finished_handler (message : ChromeMessage) (s : PageState) : PageState :=
  match message.method with
  | Option.none => s
  | Option.some method =>
    if method = "Page.frameStoppedLoading" then
      check_load_complete
        { s with frame_scheduled_navigation := false
                 frame_stopped_loading_event := true }
    else if method = "Page.lifecycleEvent" then
      match message.params with
      | Option.none => s
      | Option.some ps =>
        match ps.name with
        | Option.none => s
        | Option.some nm =>
          if nm = "networkAlmostIdle" then
            check_load_complete
              { s with frame_scheduled_navigation := false
                       network_almost_idle_event := true }
          else
            check_load_complete s
    else if method = "Runtime.executionContextCreated" then
      check_load_complete
        { s with frame_scheduled_navigation := false
                 execution_context_created := true }
    else
      check_load_complete s

/-- `_page_state_handler`: run the navigation handler, then the load-finished
handler, on the same message. -/
def _page_state_handler (message : ChromeMessage) (s : PageState) : PageState :=
  _load_url_finished_handler message (_navigator_started_handler message s)

/-- Process a list of inbound messages in order through `_page_state_handler`. -/
def processMessages (s : PageState) (ms : List ChromeMessage) : PageState :=
  ms.foldl (fun s m => _page_state_handler m s) s

/-- `load_url`: set the page state to LOADING synchronously (the
`Page.navigate` command it then issues is an external effect). -/
def load_url (s : PageState) : PageState :=
  { s with page_state := PAGE_STATE_LOADING }

/-- `navigate_to_history_index`: set the page state to LOADING before issuing
`Page.navigateToHistoryEntry`. -/
def navigate_to_history_index (s : PageState) : PageState :=
  { s with page_state := PAGE_STATE_LOADING }

/-- `stop`: force the page state to LOADED (the `Page.stopLoading` command is
an external effect). -/
def stop (s : PageState) : PageState :=
  { s with page_state := PAGE_STATE_LOADED }

/-- A public operation or a processed protocol event acting on the page state. -/
inductive ChromeOp
  | load_url_op
  | navigate_to_history_index_op
  | stop_op
  | event_op (m : ChromeMessage)
deriving DecidableEq

def apply_op (s : PageState) : ChromeOp → PageState
  | ChromeOp.load_url_op => load_url s
  | ChromeOp.navigate_to_history_index_op => navigate_to_history_index s
  | ChromeOp.stop_op => stop s
  | ChromeOp.event_op m => _page_state_handler m s

def apply_ops (s : PageState) (ops : List ChromeOp) : PageState :=
  ops.foldl apply_op s

/-- The `Page.frameScheduledNavigation` event message. -/
def navigationScheduledMsg : ChromeMessage :=
  { method := Option.some "Page.frameScheduledNavigation", params := Option.none }

/-- The `Page.frameStoppedLoading` event message. -/
def frameStoppedLoadingMsg : ChromeMessage :=
  { method := Option.some "Page.frameStoppedLoading", params := Option.none }

/-- The `Page.lifecycleEvent` message with `params.name = networkAlmostIdle`. -/
def networkAlmostIdleMsg : ChromeMessage :=
  { method := Option.some "Page.lifecycleEvent"
    params := Option.some { name := Option.some "networkAlmostIdle" } }

/-- The `Runtime.executionContextCreated` event message. -/
def executionContextCreatedMsg : ChromeMessage :=
  { method := Option.some "Runtime.executionContextCreated", params := Option.none }

/-! ## Decoded JavaScript values -/

/-- A decoded value coming back from the browser, as handled by the Python
code: `None`, booleans, integers and strings cover every use in the
controller.  `PyVal.none` doubles as the Python `None`, which is also the
default returned by `dict.get` for a missing key. -/
inductive PyVal
  | none
  | bool (b : Bool)
  | int (n : Int)
  | str (s : String)
deriving DecidableEq

/-! ## `_js_runtime_evaluate`: the `Runtime.evaluate` wrapper -/

/-- The innermost `result` object of a `Runtime.evaluate` response; its
`value` key may be missing. -/
structure RemoteObject (V : Type) where
  value : Option V
deriving DecidableEq

/-- The `result` wrapper of a `Runtime.evaluate` response: the inner `result`
object may be missing, and `exceptionDetails` is present when the evaluated
expression threw on the JavaScript side. -/
structure EvalResult (V : Type) where
  result : Option (RemoteObject V)
  exceptionDetails : Option String
deriving DecidableEq

/-- A `Runtime.evaluate` response as returned by the protocol connection; the
outer `result` key may be missing. -/
structure EvalResponse (V : Type) where
  result : Option (EvalResult V)
deriving DecidableEq

/-- `_js_runtime_evaluate`, operating on the (possibly absent) protocol
response: return `None` when the response is absent, when the `result`
wrapper is missing, when the inner `result` object is missing, or when the
`value` key is missing; otherwise return the decoded value. -/
def _js_runtime_evaluate {V : Type} (response : Option (EvalResponse V)) : Option V :=
  match response with
  | Option.none => Option.none
  | Option.some r =>
    match r.result with
    | Option.none => Option.none
    | Option.some wrapper =>
      match wrapper.result with
      | Option.none => Option.none
      | Option.some remote => remote.value

/-- Modelled from the spec: the shape of a `Runtime.evaluate` response when
the evaluated expression raised a JavaScript-side exception.  The browser and
the protocol connection (`DebugChromeInterface`) that produce this response
are external to the shown sources; per the evaluation contract of the spec
the response carries exception details and no plain `value` field. -/
def js_exception_response (V : Type) (details : String) : EvalResponse V :=
  { result := Option.some
      { result := Option.some { value := Option.none }
        exceptionDetails := Option.some details } }

/-! ## Event-type validation and `dispatch_js_event` -/

/-- Membership in the character class of `EVENT_TYPE_RE = [a-zA-Z.]+`. -/
def isEventTypeChar (c : Char) : Bool :=
  c.isAlpha || c = '.'

/-- Python `re.match` semantics for the pattern `[a-zA-Z.]+`: the regex is
anchored at the start of the string only, so a match exists exactly when the
string has a non-empty prefix of class characters. -/
def event_type_re_match (event_type : String) : Bool :=
  0 < (event_type.toList.takeWhile isEventTypeChar).length

/-- `_is_valid_event_type`: `bool(EVENT_TYPE_RE.match(event_type))`. -/
def _is_valid_event_type (event_type : String) : Bool :=
  event_type_re_match event_type

/-- `_escape_js_string`: replace every double quote in `text` by a backslash
followed by a double quote. -/
def _escape_js_string (text : String) : String :=
  String.mk (text.toList.foldr
    (fun c acc => if c = '"' then '\\' :: c :: acc else c :: acc) [])

/-- The three failure modes of `dispatch_js_event`: the failed `assert` on
the event type, `EventTimeout` and `EventException`. -/
inductive DispatchError
  | assertionError
  | eventTimeout
  | eventException
deriving DecidableEq

/-- `dispatch_js_event`: assert the event type is valid, escape the selector,
build the `dispatchCustomEvent` expression and evaluate it; `None` becomes
`EventTimeout`, an explicit `False` becomes `EventException`, anything else
returns `True`.  The browser-side evaluation is abstracted as the function
`js_eval` from the generated expression to its decoded result. -/
def dispatch_js_event (js_eval : String → Option PyVal)
    (selector event_type : String) : Except DispatchError PyVal :=
  if ¬ _is_valid_event_type event_type then
    Except.error DispatchError.assertionError
  else
    let sel := _escape_js_string selector
    let cmd := "window._DOMAnalyzer.dispatchCustomEvent(\"" ++ sel
      ++ "\", \"" ++ event_type ++ "\")"
    match js_eval cmd with
    | Option.none => Except.error DispatchError.eventTimeout
    | Option.some v =>
      if v = PyVal.bool false then Except.error DispatchError.eventException
      else Except.ok (PyVal.bool true)

/-! ## `_paginate`: the generic pagination loop -/

/-- `_paginate`: fetch a page from `functor` at the current offset, yield its
items, stop as soon as a page holds fewer than `page_count` items, otherwise
advance the offset by `page_count` and repeat.  The Python loop is
`while True`; the `fuel` argument bounds the number of iterations of the
embedding, and every theorem below supplies enough fuel for the loop to reach
its short page.  The result is the yielded items together with the number of
fetch calls performed. -/
def _paginate {α : Type} (functor : Nat → Nat → List α) (page_count : Nat) :
    Nat → Nat → List α × Nat
  | 0, _ => ([], 0)
  | fuel + 1, start =>
    let page := functor start page_count
    if page.length < page_count then
      (page, 1)
    else
      let rest := _paginate functor page_count fuel (start + page_count)
      (page ++ rest.1, rest.2 + 1)

/-- The page-fetch function of the pagination claims: a dataset of the items
of `items`, where a fetch at offset `start` returns the items in
`[start, min (start + count) items.length)`. -/
def page_fetch {α : Type} (items : List α) (start count : Nat) : List α :=
  (items.drop start).take count

/-! ## `EventListener` records -/

/-- A decoded field mapping: field name to value.  Python dictionaries have
pairwise-distinct keys; the theorems that need this carry an explicit
`Nodup` hypothesis on the key list. -/
abbrev FieldMap : Type := List (String × PyVal)

/-- Python `dict.get(key)`: the value of the first matching key, or `None`
when the key is absent. -/
def dict_get (d : FieldMap) (k : String) : PyVal :=
  match d with
  | [] => PyVal.none
  | p :: rest => if p.1 = k then p.2 else dict_get rest k

/-- The `EventListener` value wrapper around a decoded field mapping. -/
structure EventListener where
  event_as_dict : FieldMap
deriving DecidableEq

/-- `EventListener.get`: `dict.get` on the wrapped mapping. -/
def EventListener.get (e : EventListener) (item : String) : PyVal :=
  dict_get e.event_as_dict item

/-- `EventListener.__len__`: the number of fields. -/
def EventListener.length (e : EventListener) : Nat :=
  e.event_as_dict.length

/-- `EventListener.__eq__`: `False` when the field counts differ, otherwise
every field of `self` must have the identical value under `other.get`. -/
def event_listener_eq (self other : EventListener) : Bool :=
  if other.length ≠ self.event_as_dict.length then
    false
  else
    self.event_as_dict.all (fun kv => decide (other.get kv.1 = kv.2))

/-! ## Paginated event-listener fetches -/

/-- `get_js_event_listeners_paginated` (and its HTML sibling, which has the
same shape): evaluate the browser-side query for the cursor `(start, count)`;
when the evaluation returns the `None` sentinel the generator yields nothing,
otherwise it wraps each decoded mapping in an `EventListener`.  The
browser-side evaluation is abstracted as the function `get_js_variable_value`
of the pagination cursor (the filters of a given call are fixed). -/
def get_js_event_listeners_paginated
    (get_js_variable_value : Nat → Nat → Option (List FieldMap))
    (start count : Nat) : List EventListener :=
  match get_js_variable_value start count with
  | Option.none => []
  | Option.some ls => ls.map EventListener.mk

/-- A browser-side evaluation that answers the query honestly from the
dataset `items`. -/
def honest_eval (items : List FieldMap) (start count : Nat) :
    Option (List FieldMap) :=
  Option.some ((items.drop start).take count)

/-- A browser-side evaluation that fails (returns the `None` sentinel) for
the fetch at offset `fail_at` and answers honestly before it. -/
def failing_eval (items : List FieldMap) (fail_at : Nat) (start count : Nat) :
    Option (List FieldMap) :=
  if start = fail_at then Option.none
  else Option.some ((items.drop start).take count)

/-! ## `terminate`: ordered fault-tolerant teardown -/

/-- The three independently nullable resource handles and the page state;
the payloads of the handles are irrelevant to the teardown logic. -/
structure ControllerHandles where
  proxy : Option Unit
  chrome_process : Option Unit
  chrome_conn : Option Unit
  page_state : Nat
deriving DecidableEq

/-- Whether each external teardown call raises when its handle is present. -/
structure TeardownEnv where
  proxy_stop_raises : Bool
  chrome_conn_close_raises : Bool
  chrome_process_terminate_raises : Bool
deriving DecidableEq

/-- `self.proxy.stop()`: an `AttributeError` when the handle was already
cleared, otherwise the external call that may itself raise. -/
def proxy_stop (env : TeardownEnv) (s : ControllerHandles) : Except String Unit :=
  match s.proxy with
  | Option.none => Except.error "AttributeError: NoneType has no attribute stop"
  | Option.some _ =>
    if env.proxy_stop_raises then Except.error "proxy stop raised" else Except.ok ()

/-- `self.chrome_conn.close()` under `AllLoggingDisabled`. -/
def chrome_conn_close (env : TeardownEnv) (s : ControllerHandles) : Except String Unit :=
  match s.chrome_conn with
  | Option.none => Except.error "AttributeError: NoneType has no attribute close"
  | Option.some _ =>
    if env.chrome_conn_close_raises then Except.error "connection close raised"
    else Except.ok ()

/-- `self.chrome_process.terminate()`. -/
def chrome_process_terminate (env : TeardownEnv) (s : ControllerHandles) :
    Except String Unit :=
  match s.chrome_process with
  | Option.none => Except.error "AttributeError: NoneType has no attribute terminate"
  | Option.some _ =>
    if env.chrome_process_terminate_raises then Except.error "process terminate raised"
    else Except.ok ()

/-- The three teardown steps, in source order. -/
inductive TeardownStep
  | proxy_stop_step
  | conn_close_step
  | process_kill_step
deriving DecidableEq

/-- The record of one attempted step: which step ran and whether its
exception was caught by the surrounding `try/except`. -/
structure TeardownOutcome where
  step : TeardownStep
  raised_and_caught : Bool
deriving DecidableEq

/-- One `try: ... except Exception: log` block: the step outcome is recorded
and a raised exception is swallowed, never propagated. -/
def try_except_log (r : Except String Unit) (step : TeardownStep) : TeardownOutcome :=
  match r with
  | Except.ok _ => { step := step, raised_and_caught := false }
  | Except.error _ => { step := step, raised_and_caught := true }

/-- The handle state left behind by `terminate`: all three handles cleared
and the page state reset to NONE. -/
def clearedHandles : ControllerHandles :=
  { proxy := Option.none
    chrome_process := Option.none
    chrome_conn := Option.none
    page_state := PAGE_STATE_NONE }

/-- `terminate`: attempt the proxy stop, the connection close and the process
kill in order, each inside its own `try/except`; then unconditionally clear
the three handles and reset the page state.  The `Except` return carries any
uncaught exception; the body has none, which is what the main theorem
states. -/
def terminate (env : TeardownEnv) (s : ControllerHandles) :
    Except String (ControllerHandles × List TeardownOutcome) := do
  let o1 := try_except_log (proxy_stop env s) TeardownStep.proxy_stop_step
  let o2 := try_except_log (chrome_conn_close env s) TeardownStep.conn_close_step
  let o3 := try_except_log (chrome_process_terminate env s) TeardownStep.process_kill_step
  pure (clearedHandles, [o1, o2, o3])

/-! ## `set_chrome_settings`: baseline configuration -/

/-- The protocol commands issued during construction, with the parameters the
source passes. -/
inductive ChromeCommand
  | security_setIgnoreCertificateErrors (ignore : Bool)
  | page_setBypassCSP (enabled : Bool)
  | page_setDownloadBehavior (behavior : String)
  | page_addScriptToEvaluateOnNewDocument
  | install_dialog_handler
  | page_enable
  | page_setLifecycleEventsEnabled (enabled : Bool)
  | runtime_enable
deriving DecidableEq

/-- `set_chrome_settings`: the baseline configuration commands in source
order and with the source parameter values. -/
def set_chrome_settings : List ChromeCommand :=
  [ ChromeCommand.security_setIgnoreCertificateErrors true,
    ChromeCommand.page_setBypassCSP false,
    ChromeCommand.page_setDownloadBehavior "deny",
    ChromeCommand.page_addScriptToEvaluateOnNewDocument,
    ChromeCommand.install_dialog_handler,
    ChromeCommand.page_enable,
    ChromeCommand.page_setLifecycleEventsEnabled true,
    ChromeCommand.runtime_enable ]


/-! ## Proof abbreviations -/
/-- Proof abbreviation: the page state is LOADED exactly when the three
sub-flags are all set.  This is the invariant the C4 helper lemmas carry. -/
def LoadedIffFlags (s : PageState) : Prop :=
  s.page_state = PAGE_STATE_LOADED ↔
    (s.frame_stopped_loading_event = true ∧ s.network_almost_idle_event = true
      ∧ s.execution_context_created = true)

/-! ## Helper lemmas -/
theorem check_load_complete_cases (s : PageState) :
    check_load_complete s = s
      ∨ check_load_complete s = { s with page_state := PAGE_STATE_LOADED } := by
  unfold check_load_complete
  split
  · right; rfl
  · left; rfl
theorem check_load_complete_page_state (s : PageState) :
    (check_load_complete s).page_state = s.page_state
      ∨ (check_load_complete s).page_state = PAGE_STATE_LOADED := by
  rcases check_load_complete_cases s with h | h <;> rw [h]
  · left; rfl
  · right; rfl
theorem finished_handler_page_state (m : ChromeMessage) (s : PageState) :
    (_load_url_finished_handler m s).page_state = s.page_state
      ∨ (_load_url_finished_handler m s).page_state = PAGE_STATE_LOADED := by
  rcases m with ⟨mth, prm⟩
  cases mth with
  | none => left; rfl
  | some method =>
    unfold _load_url_finished_handler
    dsimp only
    split
    · rcases check_load_complete_page_state
        { s with frame_scheduled_navigation := false,
                 frame_stopped_loading_event := true } with h | h <;> [left; right] <;>
        simpa using h
    · split
      · cases prm with
        | none => left; rfl
        | some ps =>
          rcases ps with ⟨nm⟩
          cases nm with
          | none => left; rfl
          | some n =>
            dsimp only
            split
            · rcases check_load_complete_page_state
                { s with frame_scheduled_navigation := false,
                         network_almost_idle_event := true } with h | h <;> [left; right] <;>
                simpa using h
            · exact check_load_complete_page_state s
      · split
        · rcases check_load_complete_page_state
            { s with frame_scheduled_navigation := false,
                     execution_context_created := true } with h | h <;> [left; right] <;>
            simpa using h
        · exact check_load_complete_page_state s
theorem handler_loading_from_loaded (m : ChromeMessage) (s : PageState)
    (hl : s.page_state = PAGE_STATE_LOADED)
    (h : (_page_state_handler m s).page_state = PAGE_STATE_LOADING) :
    m.method = Option.some "Page.frameScheduledNavigation" := by
  rcases m with ⟨mth, prm⟩
  cases mth with
  | none =>
    exfalso
    have : (_page_state_handler ⟨Option.none, prm⟩ s) = s := rfl
    rw [this, hl] at h
    simp [PAGE_STATE_LOADED, PAGE_STATE_LOADING] at h
  | some method =>
    by_cases hm : method = "Page.frameScheduledNavigation"
    · simp [hm]
    · exfalso
      have hnav : _navigator_started_handler ⟨Option.some method, prm⟩ s = s := by
        unfold _navigator_started_handler
        simp [hm]
      have hps : _page_state_handler ⟨Option.some method, prm⟩ s
          = _load_url_finished_handler ⟨Option.some method, prm⟩ s := by
        unfold _page_state_handler
        rw [hnav]
      rw [hps] at h
      rcases finished_handler_page_state ⟨Option.some method, prm⟩ s with h2 | h2 <;>
        rw [h2] at h
      · rw [hl] at h
        simp [PAGE_STATE_LOADED, PAGE_STATE_LOADING] at h
      · simp [PAGE_STATE_LOADED, PAGE_STATE_LOADING] at h
theorem inv_check_monotone (s s' : PageState)
    (hps : s'.page_state = s.page_state)
    (h1 : s.frame_stopped_loading_event = true → s'.frame_stopped_loading_event = true)
    (h2 : s.network_almost_idle_event = true → s'.network_almost_idle_event = true)
    (h3 : s.execution_context_created = true → s'.execution_context_created = true)
    (h : LoadedIffFlags s) : LoadedIffFlags (check_load_complete s') := by
  unfold LoadedIffFlags check_load_complete at *
  split
  · rename_i hcond
    simp only [Bool.and_eq_true] at hcond
    constructor
    · intro _
      exact ⟨hcond.1.2, hcond.1.1, hcond.2⟩
    · intro _
      rfl
  · rename_i hcond
    simp only [Bool.and_eq_true] at hcond
    constructor
    · intro hld
      rw [hps] at hld
      obtain ⟨f1, f2, f3⟩ := h.mp hld
      exact absurd ⟨⟨h2 f2, h1 f1⟩, h3 f3⟩ hcond
    · intro hf
      exact absurd ⟨⟨hf.2.1, hf.1⟩, hf.2.2⟩ hcond
theorem handler_preserves_inv (m : ChromeMessage) (s : PageState)
    (h : LoadedIffFlags s) : LoadedIffFlags (_page_state_handler m s) := by
  rcases m with ⟨mth, prm⟩
  cases mth with
  | none => exact h
  | some method =>
    by_cases hm : method = "Page.frameScheduledNavigation"
    · subst hm
      have hres : _page_state_handler
          ⟨Option.some "Page.frameScheduledNavigation", prm⟩ s =
          { frame_stopped_loading_event := false, frame_scheduled_navigation := true,
            network_almost_idle_event := false, execution_context_created := false,
            page_state := PAGE_STATE_LOADING } := rfl
      rw [hres]
      unfold LoadedIffFlags
      decide
    · have hnav : _navigator_started_handler ⟨Option.some method, prm⟩ s = s := by
        unfold _navigator_started_handler
        simp [hm]
      have hsplit : _page_state_handler ⟨Option.some method, prm⟩ s
          = _load_url_finished_handler ⟨Option.some method, prm⟩ s := by
        unfold _page_state_handler
        rw [hnav]
      rw [hsplit]
      by_cases hstop : method = "Page.frameStoppedLoading"
      · subst hstop
        have hres : _load_url_finished_handler
            ⟨Option.some "Page.frameStoppedLoading", prm⟩ s =
            check_load_complete
              { s with frame_scheduled_navigation := false,
                       frame_stopped_loading_event := true } := rfl
        rw [hres]
        exact inv_check_monotone s _ rfl (fun _ => rfl) (fun hx => hx) (fun hx => hx) h
      · by_cases hlife : method = "Page.lifecycleEvent"
        · subst hlife
          cases prm with
          | none => exact h
          | some ps =>
            rcases ps with ⟨nm⟩
            cases nm with
            | none => exact h
            | some n =>
              by_cases hn : n = "networkAlmostIdle"
              · subst hn
                have hres : _load_url_finished_handler
                    ⟨Option.some "Page.lifecycleEvent",
                      Option.some ⟨Option.some "networkAlmostIdle"⟩⟩ s =
                    check_load_complete
                      { s with frame_scheduled_navigation := false,
                               network_almost_idle_event := true } := rfl
                rw [hres]
                exact inv_check_monotone s _ rfl (fun hx => hx) (fun _ => rfl)
                  (fun hx => hx) h
              · have hres : _load_url_finished_handler
                    ⟨Option.some "Page.lifecycleEvent",
                      Option.some ⟨Option.some n⟩⟩ s = check_load_complete s := by
                  unfold _load_url_finished_handler
                  simp [hn]
                rw [hres]
                exact inv_check_monotone s s rfl (fun hx => hx) (fun hx => hx)
                  (fun hx => hx) h
        · by_cases hctx : method = "Runtime.executionContextCreated"
          · subst hctx
            have hres : _load_url_finished_handler
                ⟨Option.some "Runtime.executionContextCreated", prm⟩ s =
                check_load_complete
                  { s with frame_scheduled_navigation := false,
                           execution_context_created := true } := rfl
            rw [hres]
            exact inv_check_monotone s _ rfl (fun hx => hx) (fun hx => hx)
              (fun _ => rfl) h
          · have hres : _load_url_finished_handler ⟨Option.some method, prm⟩ s
                = check_load_complete s := by
              unfold _load_url_finished_handler
              simp [hstop, hlife, hctx]
            rw [hres]
            exact inv_check_monotone s s rfl (fun hx => hx) (fun hx => hx)
              (fun hx => hx) h
theorem processMessages_inv (msgs : List ChromeMessage) :
    ∀ s : PageState, LoadedIffFlags s → LoadedIffFlags (processMessages s msgs) := by
  induction msgs with
  | nil => intro s h; exact h
  | cons m rest ih =>
    intro s h
    exact ih (_page_state_handler m s) (handler_preserves_inv m s h)
theorem nat_ceil_div_of_mod_ne_zero (L P : Nat) (hP : 0 < P) (hmod : L % P ≠ 0) :
    (L + P - 1) / P = L / P + 1 := by
  have hq : P * (L / P) + L % P = L := Nat.div_add_mod L P
  have hrlt : L % P < P := Nat.mod_lt _ hP
  have h1 : L + P - 1 = (L % P - 1) + (L / P + 1) * P := by
    have hexp : (L / P + 1) * P = P * (L / P) + P := by ring
    rw [hexp]
    generalize P * (L / P) = pq at hq
    generalize L % P = r at hq hrlt hmod ⊢
    omega
  rw [h1, Nat.add_mul_div_right _ _ hP, Nat.div_eq_of_lt (by omega)]
  omega
theorem paginate_page_fetch {α : Type} (items : List α) (P : Nat) (hP : 0 < P) :
    ∀ fuel start, (items.length - start) / P < fuel →
      _paginate (page_fetch items) P fuel start
        = (items.drop start, (items.length - start) / P + 1) := by
  intro fuel
  induction fuel with
  | zero => intro start h; exact absurd h (Nat.not_lt_zero _)
  | succ fuel ih =>
    intro start h
    unfold _paginate
    have hlen : (page_fetch items start P).length = min P (items.length - start) := by
      simp [page_fetch]
    by_cases hshort : items.length - start < P
    · have hcond : (page_fetch items start P).length < P := by omega
      rw [if_pos hcond]
      have hdiv : (items.length - start) / P = 0 := Nat.div_eq_of_lt hshort
      have htake : page_fetch items start P = items.drop start := by
        apply List.take_of_length_le
        simp only [List.length_drop]
        omega
      rw [htake, hdiv]
    · have hge : P ≤ items.length - start := by omega
      have hcond : ¬ (page_fetch items start P).length < P := by omega
      rw [if_neg hcond]
      have hdivstep : (items.length - start) / P = (items.length - start - P) / P + 1 :=
        Nat.div_eq_sub_div hP hge
      have hsub : items.length - (start + P) = items.length - start - P := by omega
      have hrec : (items.length - (start + P)) / P < fuel := by
        rw [hsub]
        omega
      rw [ih (start + P) hrec]
      dsimp only
      have happ : page_fetch items start P ++ items.drop (start + P) = items.drop start :=
        List.drop_take_append_drop items start P
      have hcnt : (items.length - (start + P)) / P + 1 + 1
          = (items.length - start) / P + 1 := by
        rw [hsub]
        omega
      rw [happ, hcnt]
theorem paginate_failing_eval (items : List FieldMap) (k P : Nat) (hP : 0 < P)
    (hlen : k * P ≤ items.length) :
    ∀ fuel i, i ≤ k → k - i < fuel →
      _paginate (get_js_event_listeners_paginated (failing_eval items (k * P))) P fuel (i * P)
        = (((items.drop (i * P)).take ((k - i) * P)).map EventListener.mk, (k - i) + 1) := by
  intro fuel
  induction fuel with
  | zero => intro i hik h; exact absurd h (Nat.not_lt_zero _)
  | succ fuel ih =>
    intro i hik h
    unfold _paginate
    by_cases hi : i = k
    · subst hi
      have hfetch : get_js_event_listeners_paginated (failing_eval items (i * P)) (i * P) P
          = [] := by
        unfold get_js_event_listeners_paginated failing_eval
        rw [if_pos rfl]
      rw [hfetch]
      rw [if_pos (by simpa using hP)]
      simp
    · have hilt : i < k := lt_of_le_of_ne hik hi
      have hne : i * P ≠ k * P := by
        intro hcontra
        exact hi (Nat.eq_of_mul_eq_mul_right hP hcontra)
      have hfetch : get_js_event_listeners_paginated (failing_eval items (k * P)) (i * P) P
          = ((items.drop (i * P)).take P).map EventListener.mk := by
        unfold get_js_event_listeners_paginated failing_eval
        rw [if_neg hne]
      rw [hfetch]
      have hroom : i * P + P ≤ items.length := by
        have : (i + 1) * P ≤ k * P := Nat.mul_le_mul_right P hilt
        have hsucc : (i + 1) * P = i * P + P := by ring
        omega
      have hplen : (((items.drop (i * P)).take P).map EventListener.mk).length = P := by
        simp only [List.length_map, List.length_take, List.length_drop]
        omega
      rw [if_neg (by omega)]
      have hstep : i * P + P = (i + 1) * P := by ring
      rw [hstep, ih (i + 1) hilt (by omega)]
      dsimp only
      have hchunk : ((items.drop (i * P)).take P).map EventListener.mk
            ++ ((items.drop ((i + 1) * P)).take ((k - (i + 1)) * P)).map EventListener.mk
          = ((items.drop (i * P)).take ((k - i) * P)).map EventListener.mk := by
        rw [← List.map_append]
        congr 1
        have hdd : items.drop ((i + 1) * P) = (items.drop (i * P)).drop P := by
          rw [List.drop_drop]
          congr 1
          ring
        rw [hdd, ← List.take_add]
        congr 1
        have : k - i = (k - (i + 1)) + 1 := by omega
        rw [this]
        ring
      rw [hchunk]
      have : k - (i + 1) + 1 + 1 = k - i + 1 := by omega
      rw [this]
theorem dict_get_eq_of_mem (d : FieldMap) (k : String) (v : PyVal)
    (hnd : (d.map Prod.fst).Nodup) (h : (k, v) ∈ d) : dict_get d k = v := by
  induction d with
  | nil => cases h
  | cons p rest ih =>
    simp only [List.map_cons, List.nodup_cons] at hnd
    rcases List.mem_cons.mp h with heq | hmem
    · rw [← heq]
      simp [dict_get]
    · have hne : p.1 ≠ k := by
        intro hc
        apply hnd.1
        rw [hc]
        exact List.mem_map_of_mem Prod.fst hmem
      simp only [dict_get, if_neg hne]
      exact ih hnd.2 hmem
theorem mem_of_dict_get_ne_none (d : FieldMap) (k : String)
    (h : dict_get d k ≠ PyVal.none) : (k, dict_get d k) ∈ d := by
  induction d with
  | nil => exact absurd rfl h
  | cons p rest ih =>
    by_cases hk : p.1 = k
    · simp only [dict_get, if_pos hk]
      rw [← hk]
      exact List.mem_cons_self _ _
    · simp only [dict_get, if_neg hk] at h ⊢
      right
      exact ih h
theorem dict_get_eq_none_of_not_mem (d : FieldMap) (k : String)
    (h : k ∉ d.map Prod.fst) : dict_get d k = PyVal.none := by
  induction d with
  | nil => rfl
  | cons p rest ih =>
    simp only [List.map_cons, List.mem_cons] at h
    push_neg at h
    simp only [dict_get, if_neg (Ne.symm h.1)]
    exact ih h.2
theorem dict_get_perm (d d' : FieldMap) (hp : d.Perm d')
    (hnd : (d.map Prod.fst).Nodup) (k : String) :
    dict_get d k = dict_get d' k := by
  have hnd' : (d'.map Prod.fst).Nodup := ((hp.map Prod.fst).nodup_iff).mp hnd
  by_cases hk : k ∈ d.map Prod.fst
  · obtain ⟨kv, hm, hfst⟩ := List.mem_map.mp hk
    have h1 : dict_get d kv.1 = kv.2 := dict_get_eq_of_mem d kv.1 kv.2 hnd hm
    have h2 : dict_get d' kv.1 = kv.2 :=
      dict_get_eq_of_mem d' kv.1 kv.2 hnd' (hp.subset hm)
    rw [← hfst, h1, h2]
  · have hk' : k ∉ d'.map Prod.fst := by
      intro hc
      exact hk ((hp.map Prod.fst).mem_iff.mpr hc)
    rw [dict_get_eq_none_of_not_mem d k hk, dict_get_eq_none_of_not_mem d' k hk']
theorem event_listener_eq_true_iff (a b : EventListener) :
    event_listener_eq a b = true ↔
      (b.event_as_dict.length = a.event_as_dict.length
        ∧ ∀ kv ∈ a.event_as_dict, dict_get b.event_as_dict kv.1 = kv.2) := by
  unfold event_listener_eq EventListener.length EventListener.get
  by_cases hl : b.event_as_dict.length = a.event_as_dict.length
  · simp [hl, List.all_eq_true]
  · simp [hl]
theorem event_listener_eq_symm_of_no_none (a b : EventListener)
    (hna : (a.event_as_dict.map Prod.fst).Nodup)
    (hnb : (b.event_as_dict.map Prod.fst).Nodup)
    (hva : ∀ kv ∈ a.event_as_dict, kv.2 ≠ PyVal.none)
    (h : event_listener_eq a b = true) : event_listener_eq b a = true := by
  rw [event_listener_eq_true_iff] at h ⊢
  obtain ⟨hlen, hall⟩ := h
  refine ⟨hlen.symm, ?_⟩
  have hsub : ∀ kv ∈ a.event_as_dict, kv ∈ b.event_as_dict := by
    intro kv hm
    have hg : dict_get b.event_as_dict kv.1 = kv.2 := hall kv hm
    have hne : dict_get b.event_as_dict kv.1 ≠ PyVal.none := by
      rw [hg]
      exact hva kv hm
    have hmem := mem_of_dict_get_ne_none b.event_as_dict kv.1 hne
    rw [hg] at hmem
    exact hmem
  have hkeys : a.event_as_dict.map Prod.fst ⊆ b.event_as_dict.map Prod.fst := by
    intro k hk
    obtain ⟨kv, hm, hfst⟩ := List.mem_map.mp hk
    rw [← hfst]
    exact List.mem_map_of_mem Prod.fst (hsub kv hm)
  have hperm : (a.event_as_dict.map Prod.fst).Perm (b.event_as_dict.map Prod.fst) := by
    apply List.Subperm.perm_of_length_le (List.subperm_of_subset hna hkeys)
    simp only [List.length_map]
    omega
  intro kv hm
  have hka : kv.1 ∈ a.event_as_dict.map Prod.fst := by
    apply hperm.mem_iff.mpr
    exact List.mem_map_of_mem Prod.fst hm
  obtain ⟨kv', hm', hfst⟩ := List.mem_map.mp hka
  have h1 : dict_get b.event_as_dict kv'.1 = kv'.2 := hall kv' hm'
  have h2 : dict_get b.event_as_dict kv.1 = kv.2 :=
    dict_get_eq_of_mem b.event_as_dict kv.1 kv.2 hnb hm
  have h3 : dict_get a.event_as_dict kv'.1 = kv'.2 :=
    dict_get_eq_of_mem a.event_as_dict kv'.1 kv'.2 hna hm'
  rw [hfst] at h1 h3
  rw [h3, ← h1]
  exact h2
theorem event_listener_eq_perm_invariant (a a' b b' : EventListener)
    (ha : a.event_as_dict.Perm a'.event_as_dict)
    (hb : b.event_as_dict.Perm b'.event_as_dict)
    (hnb : (b.event_as_dict.map Prod.fst).Nodup) :
    event_listener_eq a b = event_listener_eq a' b' := by
  rw [Bool.eq_iff_iff, event_listener_eq_true_iff, event_listener_eq_true_iff]
  constructor
  · intro ⟨hlen, hall⟩
    refine ⟨by rw [← hb.length_eq, ← ha.length_eq]; exact hlen, ?_⟩
    intro kv hm
    rw [← dict_get_perm b.event_as_dict b'.event_as_dict hb hnb]
    exact hall kv (ha.mem_iff.mpr hm)
  · intro ⟨hlen, hall⟩
    refine ⟨by rw [hb.length_eq, ha.length_eq]; exact hlen, ?_⟩
    intro kv hm
    rw [dict_get_perm b.event_as_dict b'.event_as_dict hb hnb]
    exact hall kv (ha.mem_iff.mp hm)

/-! ## The claims -/
/-- Claim C1 (confirmed): after a navigation-scheduled event, for every
permutation of the three sub-events (frame-stopped-loading, lifecycle
networkAlmostIdle, execution-context-created), the page state is LOADED once
the last of the three has been processed, and is not LOADED after any proper
prefix of the permutation; the join is commutative over the six orderings. -/
theorem c1_load_state_join_commutes (s0 : PageState) (ms : List ChromeMessage)
    (h : ms.Perm [frameStoppedLoadingMsg, networkAlmostIdleMsg, executionContextCreatedMsg]) :
    (processMessages (_page_state_handler navigationScheduledMsg s0) ms).page_state
      = PAGE_STATE_LOADED
    ∧ ∀ n, n < ms.length →
        (processMessages (_page_state_handler navigationScheduledMsg s0)
          (ms.take n)).page_state ≠ PAGE_STATE_LOADED := by
  have hs : _page_state_handler navigationScheduledMsg s0 =
      { frame_stopped_loading_event := false, frame_scheduled_navigation := true,
        network_almost_idle_event := false, execution_context_created := false,
        page_state := PAGE_STATE_LOADING } := rfl
  rw [hs]
  have hlen : ms.length = 3 := h.length_eq
  rcases ms with _ | ⟨x, ms⟩
  · simp at hlen
  rcases ms with _ | ⟨y, ms⟩
  · simp at hlen
  rcases ms with _ | ⟨z, ms⟩
  · simp at hlen
  rcases ms with _ | ⟨w, ms⟩
  case cons.cons.cons.cons =>
    simp at hlen
  have hx : x ∈ [frameStoppedLoadingMsg, networkAlmostIdleMsg, executionContextCreatedMsg] :=
    h.subset (by simp)
  have hy : y ∈ [frameStoppedLoadingMsg, networkAlmostIdleMsg, executionContextCreatedMsg] :=
    h.subset (by simp)
  have hz : z ∈ [frameStoppedLoadingMsg, networkAlmostIdleMsg, executionContextCreatedMsg] :=
    h.subset (by simp)
  simp only [List.mem_cons, List.not_mem_nil, or_false] at hx hy hz
  rcases hx with rfl | rfl | rfl <;> rcases hy with rfl | rfl | rfl <;>
    rcases hz with rfl | rfl | rfl <;>
    first
      | exact absurd h (by decide)
      | decide
/-- Witness for C1 at a concrete ordering of the three sub-events. -/
theorem c1_witness :
    (processMessages (_page_state_handler navigationScheduledMsg initialPageState)
      [executionContextCreatedMsg, frameStoppedLoadingMsg, networkAlmostIdleMsg]).page_state
      = PAGE_STATE_LOADED
    ∧ ∀ n, n < ([executionContextCreatedMsg, frameStoppedLoadingMsg,
        networkAlmostIdleMsg] : List ChromeMessage).length →
        (processMessages (_page_state_handler navigationScheduledMsg initialPageState)
          ([executionContextCreatedMsg, frameStoppedLoadingMsg,
            networkAlmostIdleMsg].take n)).page_state ≠ PAGE_STATE_LOADED :=
  c1_load_state_join_commutes initialPageState _ (by decide)
/-- Claim C2 (code bug): the claim states that every event type containing a
character outside [a-zA-Z.] is rejected before any command is sent.  The
source applies EVENT_TYPE_RE with re.match, which anchors at the start of the
string only, so the event type click);x( passes validation although it
contains characters outside the class, and the dispatch command is sent to
the browser.  This contradicts the stated purpose of _is_valid_event_type,
namely preventing injection into the generated expression. -/
theorem c2_validation_bypass :
    _is_valid_event_type "click);x(" = true
    ∧ isEventTypeChar ')' = false
    ∧ dispatch_js_event (fun _ => Option.some (PyVal.bool true)) "div" "click);x("
        = Except.ok (PyVal.bool true) :=
  ⟨by decide, by decide, rfl⟩
/-- Claim C3 (confirmed): pagination over a dataset of N items with page
size P > 0 yields exactly the N items once each and performs N / P + 1 fetch
calls when P divides N (including N = 0), and ceil(N/P) = (N + P - 1) / P
calls otherwise; the final fetch, at offset (N / P) * P, is the first fetch
that returns fewer than P items, and the loop stops there. -/
theorem c3_pagination_exact {α : Type} (items : List α) (P fuel : Nat)
    (hP : 0 < P) (hfuel : items.length / P < fuel) :
    _paginate (page_fetch items) P fuel 0
      = (items,
         if items.length % P = 0 then items.length / P + 1
         else (items.length + P - 1) / P)
    ∧ (page_fetch items (items.length / P * P) P).length < P := by
  constructor
  · have hmain := paginate_page_fetch items P hP fuel 0 (by simpa using hfuel)
    rw [hmain]
    have hcount : (if items.length % P = 0 then items.length / P + 1
        else (items.length + P - 1) / P) = items.length / P + 1 := by
      split
      · rfl
      · rename_i hmod
        exact nat_ceil_div_of_mod_ne_zero items.length P hP hmod
    rw [hcount]
    simp
  · have hq : P * (items.length / P) + items.length % P = items.length :=
      Nat.div_add_mod items.length P
    have hrlt : items.length % P < P := Nat.mod_lt _ hP
    have hlen : (page_fetch items (items.length / P * P) P).length
        = min P (items.length - items.length / P * P) := by
      simp [page_fetch]
    have hless : items.length - items.length / P * P < P := by
      have hcomm : items.length / P * P = P * (items.length / P) := by ring
      rw [hcomm]
      generalize P * (items.length / P) = pq at hq ⊢
      generalize items.length % P = r at hq hrlt
      omega
    omega
/-- Witness for C3: five items with page size two give three fetch calls. -/
theorem c3_witness :
    _paginate (page_fetch ([0, 1, 2, 3, 4] : List Nat)) 2 3 0
      = ([0, 1, 2, 3, 4],
         if ([0, 1, 2, 3, 4] : List Nat).length % 2 = 0
         then ([0, 1, 2, 3, 4] : List Nat).length / 2 + 1
         else (([0, 1, 2, 3, 4] : List Nat).length + 2 - 1) / 2)
    ∧ (page_fetch ([0, 1, 2, 3, 4] : List Nat)
        (([0, 1, 2, 3, 4] : List Nat).length / 2 * 2) 2).length < 2 :=
  c3_pagination_exact [0, 1, 2, 3, 4] 2 3 (by decide) (by decide)
/-- Counterexample to C4 as stated: after the public operation stop() the
page state is LOADED while all three sub-flags are false, so the claimed
equivalence fails on states reachable through the public operations. -/
theorem c4_counterexample :
    (apply_ops initialPageState [ChromeOp.stop_op]).page_state = PAGE_STATE_LOADED
    ∧ (apply_ops initialPageState [ChromeOp.stop_op]).frame_stopped_loading_event = false
    ∧ (apply_ops initialPageState [ChromeOp.stop_op]).network_almost_idle_event = false
    ∧ (apply_ops initialPageState [ChromeOp.stop_op]).execution_context_created = false := by
  decide
/-- Claim C4 (corrected): restricted to states reachable from the initial
state by processed protocol events alone, the page state equals LOADED if and
only if the three sub-flags are all true; moreover a handler step moves the
state from LOADED to LOADING only when the message is the navigation-scheduled
event.  The public operations break the equivalence: stop() forces LOADED and
load_url() and navigate_to_history_index() force LOADING, none of them
touching the sub-flags (see the counterexample). -/
theorem c4_amended (msgs : List ChromeMessage) :
    ((processMessages initialPageState msgs).page_state = PAGE_STATE_LOADED ↔
      ((processMessages initialPageState msgs).frame_stopped_loading_event = true
        ∧ (processMessages initialPageState msgs).network_almost_idle_event = true
        ∧ (processMessages initialPageState msgs).execution_context_created = true))
    ∧ (∀ m : ChromeMessage,
        (processMessages initialPageState msgs).page_state = PAGE_STATE_LOADED →
        (_page_state_handler m (processMessages initialPageState msgs)).page_state
          = PAGE_STATE_LOADING →
        m.method = Option.some "Page.frameScheduledNavigation") := by
  constructor
  · exact processMessages_inv msgs initialPageState (by unfold LoadedIffFlags; decide)
  · intro m hl h
    exact handler_loading_from_loaded m _ hl h
/-- Witness for C4: a full load sequence reaches LOADED, and the
navigation-scheduled message is the event behind a LOADED to LOADING step. -/
theorem c4_witness :
    (processMessages initialPageState
      [navigationScheduledMsg, frameStoppedLoadingMsg, networkAlmostIdleMsg,
        executionContextCreatedMsg]).page_state = PAGE_STATE_LOADED
    ∧ navigationScheduledMsg.method = Option.some "Page.frameScheduledNavigation" := by
  constructor
  · exact (c4_amended [navigationScheduledMsg, frameStoppedLoadingMsg, networkAlmostIdleMsg,
      executionContextCreatedMsg]).1.mpr (by decide)
  · exact (c4_amended [navigationScheduledMsg, frameStoppedLoadingMsg, networkAlmostIdleMsg,
      executionContextCreatedMsg]).2 navigationScheduledMsg (by decide) (by decide)
/-- Claim C5 (confirmed): the evaluation wrapper returns the decoded value on
success and the single no-result sentinel (None) in every failure case:
absent response, missing result wrapper, missing inner result object, missing
value field, and a JavaScript-side exception, whose response shape is
modelled from the spec by js_exception_response.  The wrapper is a total
function into Option, so it never raises and never returns a distinguishable
error. -/
theorem c5_eval_coalesces_to_sentinel :
    (∀ V : Type, _js_runtime_evaluate (V := V) Option.none = Option.none)
    ∧ (∀ V : Type,
        _js_runtime_evaluate (V := V) (Option.some ⟨Option.none⟩) = Option.none)
    ∧ (∀ (V : Type) (exc : Option String),
        _js_runtime_evaluate (V := V)
          (Option.some ⟨Option.some ⟨Option.none, exc⟩⟩) = Option.none)
    ∧ (∀ (V : Type) (exc : Option String),
        _js_runtime_evaluate (V := V)
          (Option.some ⟨Option.some ⟨Option.some ⟨Option.none⟩, exc⟩⟩) = Option.none)
    ∧ (∀ (V : Type) (details : String),
        _js_runtime_evaluate (Option.some (js_exception_response V details)) = Option.none)
    ∧ (∀ (V : Type) (v : V) (exc : Option String),
        _js_runtime_evaluate
          (Option.some ⟨Option.some ⟨Option.some ⟨Option.some v⟩, exc⟩⟩) = Option.some v) :=
  ⟨fun _ => rfl, fun _ => rfl, fun _ _ => rfl, fun _ _ => rfl, fun _ _ => rfl,
    fun _ _ _ => rfl⟩
/-- Claim C6 (confirmed): for every handle state (including the state left by
a previous terminate or by a partial construction) and every combination of
step failures, terminate returns without an uncaught exception, attempts all
three teardown steps in source order, and leaves all three handles absent
with the page state reset to NONE; on the already-cleared state every step
raises an AttributeError that is caught, so a second call is harmless. -/
theorem c6_terminate_idempotent_fault_tolerant (env : TeardownEnv) (s : ControllerHandles) :
    (∃ outs : List TeardownOutcome,
      terminate env s = Except.ok (clearedHandles, outs)
      ∧ outs.map TeardownOutcome.step =
          [TeardownStep.proxy_stop_step, TeardownStep.conn_close_step,
            TeardownStep.process_kill_step]
      ∧ (s = clearedHandles → outs.all TeardownOutcome.raised_and_caught = true)) := by
  refine ⟨[try_except_log (proxy_stop env s) TeardownStep.proxy_stop_step,
    try_except_log (chrome_conn_close env s) TeardownStep.conn_close_step,
    try_except_log (chrome_process_terminate env s) TeardownStep.process_kill_step],
    rfl, ?_, ?_⟩
  · cases h1 : proxy_stop env s <;> cases h2 : chrome_conn_close env s <;>
      cases h3 : chrome_process_terminate env s <;>
      simp [try_except_log, h1, h2, h3]
  · intro hcl
    subst hcl
    rfl
/-- Witness for C6: terminating the already-terminated controller succeeds
and every step has its exception caught. -/
theorem c6_witness :
    ∃ outs : List TeardownOutcome,
      terminate ⟨false, false, false⟩ clearedHandles = Except.ok (clearedHandles, outs)
      ∧ outs.map TeardownOutcome.step =
          [TeardownStep.proxy_stop_step, TeardownStep.conn_close_step,
            TeardownStep.process_kill_step]
      ∧ outs.all TeardownOutcome.raised_and_caught = true := by
  obtain ⟨outs, h1, h2, h3⟩ := c6_terminate_idempotent_fault_tolerant
    ⟨false, false, false⟩ clearedHandles
  exact ⟨outs, h1, h2, h3 rfl⟩
/-- Counterexample to C7 as stated: with a None-valued field the equality is
not symmetric.  The record with fields a := None, b := 1 compares equal to
the record with fields b := 1, c := 2, because the missing key a reads back
as the default None, but the reverse comparison fails on the key c. -/
theorem c7_counterexample :
    event_listener_eq ⟨[("a", PyVal.none), ("b", PyVal.int 1)]⟩
        ⟨[("b", PyVal.int 1), ("c", PyVal.int 2)]⟩ = true
    ∧ event_listener_eq ⟨[("b", PyVal.int 1), ("c", PyVal.int 2)]⟩
        ⟨[("a", PyVal.none), ("b", PyVal.int 1)]⟩ = false := by
  decide
/-- Claim C7 (corrected): EventListener equality is reflexive and insensitive
to field order for records with pairwise-distinct field names, and two
records with differing field counts are never equal; the relation is
symmetric for every pair of records none of whose field values is None, but
symmetry can fail when a record holds a None-valued field (see the
counterexample). -/
theorem c7_amended :
    (∀ a : EventListener, (a.event_as_dict.map Prod.fst).Nodup →
        event_listener_eq a a = true)
    ∧ (∀ a b : EventListener, a.event_as_dict.length ≠ b.event_as_dict.length →
        event_listener_eq a b = false)
    ∧ (∀ a a' b b' : EventListener, a.event_as_dict.Perm a'.event_as_dict →
        b.event_as_dict.Perm b'.event_as_dict →
        (b.event_as_dict.map Prod.fst).Nodup →
        event_listener_eq a b = event_listener_eq a' b')
    ∧ (∀ a b : EventListener, (a.event_as_dict.map Prod.fst).Nodup →
        (b.event_as_dict.map Prod.fst).Nodup →
        (∀ kv ∈ a.event_as_dict, kv.2 ≠ PyVal.none) →
        event_listener_eq a b = true → event_listener_eq b a = true) := by
  refine ⟨?_, ?_, event_listener_eq_perm_invariant, event_listener_eq_symm_of_no_none⟩
  · intro a hna
    rw [event_listener_eq_true_iff]
    exact ⟨rfl, fun kv hm => dict_get_eq_of_mem a.event_as_dict kv.1 kv.2 hna hm⟩
  · intro a b hlen
    unfold event_listener_eq EventListener.length
    rw [if_pos (fun hc => hlen hc.symm)]
/-- Witness for C7 on concrete records: reflexivity, field-count mismatch,
order insensitivity and symmetry. -/
theorem c7_witness :
    event_listener_eq ⟨[("event_type", PyVal.str "click"), ("selector", PyVal.str "div")]⟩
        ⟨[("event_type", PyVal.str "click"), ("selector", PyVal.str "div")]⟩ = true
    ∧ event_listener_eq ⟨[("event_type", PyVal.str "click")]⟩
        ⟨[("event_type", PyVal.str "click"), ("selector", PyVal.str "div")]⟩ = false
    ∧ event_listener_eq
        ⟨[("event_type", PyVal.str "click"), ("selector", PyVal.str "div")]⟩
        ⟨[("selector", PyVal.str "div"), ("event_type", PyVal.str "click")]⟩
      = event_listener_eq
        ⟨[("event_type", PyVal.str "click"), ("selector", PyVal.str "div")]⟩
        ⟨[("event_type", PyVal.str "click"), ("selector", PyVal.str "div")]⟩
    ∧ event_listener_eq
        ⟨[("selector", PyVal.str "div"), ("event_type", PyVal.str "click")]⟩
        ⟨[("event_type", PyVal.str "click"), ("selector", PyVal.str "div")]⟩ = true := by
  refine ⟨?_, ?_, ?_, ?_⟩
  · exact c7_amended.1 ⟨[("event_type", PyVal.str "click"), ("selector", PyVal.str "div")]⟩
      (by decide)
  · exact c7_amended.2.1 ⟨[("event_type", PyVal.str "click")]⟩
      ⟨[("event_type", PyVal.str "click"), ("selector", PyVal.str "div")]⟩ (by decide)
  · exact c7_amended.2.2.1
      ⟨[("event_type", PyVal.str "click"), ("selector", PyVal.str "div")]⟩
      ⟨[("event_type", PyVal.str "click"), ("selector", PyVal.str "div")]⟩
      ⟨[("selector", PyVal.str "div"), ("event_type", PyVal.str "click")]⟩
      ⟨[("event_type", PyVal.str "click"), ("selector", PyVal.str "div")]⟩
      (List.Perm.refl _) (by decide) (by decide)
  · exact c7_amended.2.2.2
      ⟨[("selector", PyVal.str "div"), ("event_type", PyVal.str "click")]⟩
      ⟨[("event_type", PyVal.str "click"), ("selector", PyVal.str "div")]⟩
      (by decide) (by decide) (by decide) (by decide)
/-- Claim C8 (code bug): the claim, like the source comment above the call
(Disable CSP), states that content-security-policy enforcement is disabled,
that is, Page.setBypassCSP is issued with the bypass enabled.  The source
issues Page.setBypassCSP with enabled=False, which leaves CSP enforcement
active; no command with enabled=True is ever sent. -/
theorem c8_csp_bypass_disabled :
    ChromeCommand.page_setBypassCSP false ∈ set_chrome_settings
    ∧ ChromeCommand.page_setBypassCSP true ∉ set_chrome_settings := by
  decide
/-- Counterexample to C9 as stated: a message with an unrecognized method
falls through to the trailing all-flags check of the load-finished handler.
In the reachable state with all three sub-flags true and page state LOADING
(a completed load followed by load_url), the unrecognized message
Network.requestWillBeSent moves the page state to LOADED. -/
theorem c9_counterexample :
    (apply_ops initialPageState
      [ChromeOp.event_op navigationScheduledMsg, ChromeOp.event_op frameStoppedLoadingMsg,
        ChromeOp.event_op networkAlmostIdleMsg, ChromeOp.event_op executionContextCreatedMsg,
        ChromeOp.load_url_op]).page_state = PAGE_STATE_LOADING
    ∧ (_page_state_handler ⟨Option.some "Network.requestWillBeSent", Option.none⟩
        (apply_ops initialPageState
          [ChromeOp.event_op navigationScheduledMsg, ChromeOp.event_op frameStoppedLoadingMsg,
            ChromeOp.event_op networkAlmostIdleMsg, ChromeOp.event_op executionContextCreatedMsg,
            ChromeOp.load_url_op])).page_state = PAGE_STATE_LOADED := by
  decide
/-- Claim C9 (corrected): malformed messages (missing method, or a lifecycle
event missing its params or name) are processed without error and leave the
whole page state unchanged; a message with an unrecognized method leaves the
sub-flags unchanged and only runs the trailing all-flags check, which either
leaves the state unchanged or sets it to LOADED when the three sub-flags are
already true. -/
theorem c9_amended (s : PageState) (m : ChromeMessage) :
    (m.method = Option.none → _page_state_handler m s = s)
    ∧ (m.method = Option.some "Page.lifecycleEvent" → m.params = Option.none →
        _page_state_handler m s = s)
    ∧ (∀ ps : MessageParams, m.method = Option.some "Page.lifecycleEvent" →
        m.params = Option.some ps → ps.name = Option.none →
        _page_state_handler m s = s)
    ∧ (∀ meth : String, m.method = Option.some meth →
        meth ≠ "Page.frameScheduledNavigation" →
        meth ≠ "Page.frameStoppedLoading" →
        meth ≠ "Page.lifecycleEvent" →
        meth ≠ "Runtime.executionContextCreated" →
        _page_state_handler m s = check_load_complete s)
    ∧ (check_load_complete s = s
        ∨ check_load_complete s = { s with page_state := PAGE_STATE_LOADED }) := by
  rcases m with ⟨mth, prm⟩
  refine ⟨?_, ?_, ?_, ?_, check_load_complete_cases s⟩
  · intro h
    simp only at h
    subst h
    rfl
  · intro hm hp
    simp only at hm hp
    subst hm
    subst hp
    rfl
  · intro ps hm hp hn
    simp only at hm hp
    subst hm
    subst hp
    rcases ps with ⟨nm⟩
    simp only at hn
    subst hn
    rfl
  · intro meth hm h1 h2 h3 h4
    simp only at hm
    subst hm
    unfold _page_state_handler _navigator_started_handler _load_url_finished_handler
    simp [h1, h2, h3, h4]
/-- Witness for C9: a missing method is a no-op, and an unrecognized method
reduces to the trailing all-flags check. -/
theorem c9_witness :
    _page_state_handler ⟨Option.none, Option.none⟩ initialPageState = initialPageState
    ∧ _page_state_handler ⟨Option.some "Network.requestWillBeSent", Option.none⟩
        initialPageState = check_load_complete initialPageState := by
  constructor
  · exact (c9_amended initialPageState ⟨Option.none, Option.none⟩).1 rfl
  · exact (c9_amended initialPageState
      ⟨Option.some "Network.requestWillBeSent", Option.none⟩).2.2.2.1
      "Network.requestWillBeSent" rfl (by decide) (by decide) (by decide) (by decide)
/-- Claim C10 (confirmed): when the browser-side evaluation returns the None
sentinel at the fetch at offset k * P, the paginated fetch yields zero items
and raises nothing; the pagination loop treats the empty page as a short page
and stops, and the overall output (yielded records and fetch count) is
identical to honest pagination over a dataset of exactly k * P items, so a
mid-iteration evaluation failure silently truncates the sequence and is
indistinguishable from end-of-data. -/
theorem c10_eval_failure_truncates (items : List FieldMap) (k P fuel : Nat)
    (hP : 0 < P) (hlen : k * P ≤ items.length) (hfuel : k < fuel) :
    get_js_event_listeners_paginated (failing_eval items (k * P)) (k * P) P = []
    ∧ _paginate (get_js_event_listeners_paginated (failing_eval items (k * P))) P fuel 0
        = ((items.take (k * P)).map EventListener.mk, k + 1)
    ∧ _paginate (get_js_event_listeners_paginated (failing_eval items (k * P))) P fuel 0
        = _paginate (get_js_event_listeners_paginated (honest_eval (items.take (k * P))))
            P fuel 0 := by
  have hzero : get_js_event_listeners_paginated (failing_eval items (k * P)) (k * P) P
      = [] := by
    unfold get_js_event_listeners_paginated failing_eval
    rw [if_pos rfl]
  have hfail : _paginate (get_js_event_listeners_paginated (failing_eval items (k * P)))
      P fuel 0 = ((items.take (k * P)).map EventListener.mk, k + 1) := by
    have hmain := paginate_failing_eval items k P hP hlen fuel 0 (Nat.zero_le k)
      (by omega)
    rw [Nat.zero_mul] at hmain
    rw [hmain]
    simp
  refine ⟨hzero, hfail, ?_⟩
  rw [hfail]
  have hfun : get_js_event_listeners_paginated (honest_eval (items.take (k * P)))
      = page_fetch ((items.take (k * P)).map EventListener.mk) := by
    funext s c
    unfold get_js_event_listeners_paginated honest_eval page_fetch
    simp [List.map_take, List.map_drop]
  rw [hfun]
  have hlen2 : ((items.take (k * P)).map EventListener.mk).length = k * P := by
    simp only [List.length_map, List.length_take]
    omega
  have hdone := paginate_page_fetch ((items.take (k * P)).map EventListener.mk) P hP fuel 0
    (by
      rw [hlen2]
      simpa [Nat.mul_div_cancel _ hP] using hfuel)
  rw [hdone, hlen2]
  simp [Nat.mul_div_cancel _ hP]
/-- Witness for C10: four records with the evaluation failing at offset two
yield the first two records only, matching honest pagination over two. -/
theorem c10_witness :
    get_js_event_listeners_paginated
      (failing_eval [[("event_type", PyVal.str "click")], [], [], []] (1 * 2)) (1 * 2) 2 = []
    ∧ _paginate (get_js_event_listeners_paginated
        (failing_eval [[("event_type", PyVal.str "click")], [], [], []] (1 * 2))) 2 2 0
        = ((([[("event_type", PyVal.str "click")], [], [], []] : List FieldMap).take
            (1 * 2)).map EventListener.mk, 1 + 1)
    ∧ _paginate (get_js_event_listeners_paginated
        (failing_eval [[("event_type", PyVal.str "click")], [], [], []] (1 * 2))) 2 2 0
        = _paginate (get_js_event_listeners_paginated
            (honest_eval (([[("event_type", PyVal.str "click")], [], [], []] :
              List FieldMap).take (1 * 2)))) 2 2 0 :=
  c10_eval_failure_truncates [[("event_type", PyVal.str "click")], [], [], []] 1 2 2
    (by decide) (by decide) (by decide)
